import Mathlib

/-!
Verification development for the MotoGP predictive-analytics repository.

The Python sources are shallowly embedded below:
* `src/scraper/pdf_parser.py` — time codec (`_convert_time_to_seconds`),
  rider-header extraction (`_extract_rider_info_from_text`), lap-line
  recognition (`_parse_lap_line`) and the stateful line scan
  (`parse_pdf_analysis`);
* `src/scraper/engine.py` — `calculate_fuel_adjusted_time`;
* `src/scraper/task_runner.py` — `filter_clean_air_laps`;
* `src/ml_engine/features/isd.py` — `calculate_isd_metrics`,
  `analyze_session`, `get_season_statistics`, `identify_dnf_risk`;
* `src/ml_engine/features/qrd.py` — `calculate_qrd`, `analyze_round`.

Python floats are modelled as exact rationals (reals where a square root
occurs); machine strings as Lean strings.  Pandas series are modelled as
lists of (index label, value) pairs, since `idxmin` returns the label.
-/

/-- Character code 39, the apostrophe used as the minute separator in
timing strings (written via `Char.ofNat` so the source file contains no
raw quote character). -/
def apos : Char := Char.ofNat 39

/-- String consisting of the single apostrophe character. -/
def aposS : String := String.mk [apos]

/-- Whitespace test used to model both Python `str.strip`/`str.split`
and the regex class `\s`. -/
def isWS (c : Char) : Bool := c.isWhitespace

/-- Model of Python `str.strip()` on a character list: remove leading and
trailing whitespace. -/
def pyStripL (cs : List Char) : List Char :=
  ((cs.dropWhile isWS).reverse.dropWhile isWS).reverse

/-- Model of Python `str.strip()`. -/
def pyStrip (s : String) : String := String.mk (pyStripL s.data)

/-- ASCII decimal digit test (Python `int`/`float` literals in this data
are plain ASCII decimals). -/
def isDig (c : Char) : Bool := c.isDigit

/-- Value of a digit character. -/
def digVal (c : Char) : ℕ := c.toNat - 48

/-- Numeric value of a digit string. -/
def natOfDigits (cs : List Char) : ℕ := cs.foldl (fun n c => 10 * n + digVal c) 0

/-- Digit-run parser: `some` of the value when the list is a nonempty
all-digit run, otherwise `none`. -/
def digitsVal (cs : List Char) : Option ℕ :=
  if cs ≠ [] ∧ cs.all isDig then some (natOfDigits cs) else none

/-- Model of Python `int(s)`: optional surrounding whitespace, optional
sign, then a nonempty digit run.  (Python also accepts underscores and
non-ASCII digits; those never occur in this repository's inputs.) -/
def pyInt (s : String) : Option ℤ :=
  match pyStripL s.data with
  | [] => none
  | c :: rest =>
    if c = '-' then (digitsVal rest).map (fun n => -(n : ℤ))
    else if c = '+' then (digitsVal rest).map (fun n => (n : ℤ))
    else (digitsVal (c :: rest)).map (fun n => (n : ℤ))

/-- Fractional-digit valuation: digits `d₁…dₖ` denote `0.d₁…dₖ`. -/
def fracOfDigits (cs : List Char) : ℚ := (natOfDigits cs : ℚ) / 10 ^ cs.length

/-- Model of Python `float(s)` restricted to plain decimal literals
(optional sign, digits with at most one decimal point, at least one
digit).  Exponent, `inf` and `nan` forms never occur in this
repository's inputs. -/
def pyFloat (s : String) : Option ℚ :=
  match pyStripL s.data with
  | [] => none
  | c :: rest =>
    let body := if c = '-' ∨ c = '+' then rest else c :: rest
    let sign : ℚ := if c = '-' then -1 else 1
    match body.splitOnP (· = '.') with
    | [ip] => (digitsVal ip).map (fun n => sign * (n : ℚ))
    | [ip, fp] =>
      if (ip.all isDig ∧ fp.all isDig) ∧ ip ++ fp ≠ [] then
        some (sign * ((natOfDigits ip : ℚ) + fracOfDigits fp))
      else none
    | _ => none

/-- Model of `MotoGPLineParser._convert_time_to_seconds` from
`src/scraper/pdf_parser.py`: empty input fails; annotation markers
`*`, `T`, `P` are removed and the string re-stripped; a string with an
apostrophe must split into exactly two parts, minutes (int) and seconds
(float), giving `m*60 + s`; otherwise the whole string is a float.
Any conversion failure yields `none`. -/
def _convert_time_to_seconds (time_str : String) : Option ℚ :=
  if time_str = ("") then none
  else
    let t := pyStripL ((pyStripL time_str.data).filter
      (fun c => ¬ (c = '*' ∨ c = 'T' ∨ c = 'P')))
    if t.any (· = apos) then
      match t.splitOnP (· = apos) with
      | [p1, p2] =>
        match pyInt (String.mk p1), pyFloat (String.mk p2) with
        | some m, some s => some ((m : ℚ) * 60 + s)
        | _, _ => none
      | _ => none
    else pyFloat (String.mk t)

/-- Fuel burn rate constant (`MotoGPScraper.fuel_burn_rate`, liters per
lap) from `src/scraper/engine.py`. -/
def fuel_burn_rate : ℚ := 0.7

/-- Seconds gained per liter of fuel burned
(`MotoGPScraper.time_gain_per_liter`, alpha) from
`src/scraper/engine.py`. -/
def time_gain_per_liter : ℚ := 0.035

/-- Model of `MotoGPScraper.calculate_fuel_adjusted_time` from
`src/scraper/engine.py`: `remaining_fuel = (total_laps − lap_number) ×
burn_rate`; result `raw_time − alpha × remaining_fuel`. -/
def calculate_fuel_adjusted_time (raw_time : ℚ) (lap_number total_laps : ℤ) : ℚ :=
  let remaining_fuel : ℚ := ((total_laps - lap_number : ℤ) : ℚ) * fuel_burn_rate
  raw_time - time_gain_per_liter * remaining_fuel

/-- Splitter with Python `str.split(sep)` semantics on character lists:
split at every separator character, keeping empty chunks. -/
def splitBy (p : Char → Bool) : List Char → List (List Char)
  | [] => [[]]
  | c :: cs =>
    if p c then [] :: splitBy p cs
    else
      match splitBy p cs with
      | [] => [[c]]
      | g :: gs => (c :: g) :: gs

/-- Model of Python `str.split()` (no argument): split on whitespace
runs, discarding empty chunks. -/
def pySplit (cs : List Char) : List (List Char) :=
  (splitBy isWS cs).filter (· ≠ [])

/-- Prefix test on character lists (first argument is the candidate
prefix). -/
def matchesAtStart : List Char → List Char → Bool
  | [], _ => true
  | _ :: _, [] => false
  | a :: as, b :: bs => a = b && matchesAtStart as bs

/-- Containment test modelling Python `needle in hay` on strings. -/
def containsSub : List Char → List Char → Bool
  | [], needle => matchesAtStart needle []
  | c :: t, needle => matchesAtStart needle (c :: t) || containsSub t needle

/-- Boilerplate substrings skipped by `parse_pdf_analysis`
(`src/scraper/pdf_parser.py`, the denylist in the line loop). -/
def boilerplate : List String :=
  ["Lap Time T1 T2 T3 T4 Speed", "Runs=", "Run #",
   "Circuit", "Results", "Analysis", "GRAN PREMIO",
   "Tyre", "Front", "Rear", "New Tyre", "unfinished",
   "Valid laps", "Full laps", "Total laps", "Fastest Lap"]

/-- Ignore test: the line contains one of the boilerplate substrings. -/
def isIgnored (s : String) : Bool :=
  boilerplate.any (fun b => containsSub s.data b.data)

/-- Uppercase ASCII letter class `[A-Z]` of the rider-header regex. -/
def isUpperAZ (c : Char) : Bool := 'A' ≤ c && c ≤ 'Z'

/-- Accented lowercase letters admitted by the given-name class of the
rider-header regex in `_extract_rider_info_from_text`. -/
def accentChars : List Char :=
  ['à', 'á', 'â', 'ä', 'æ', 'è', 'é', 'ê', 'ë', 'ì', 'í', 'î', 'ï',
   'ò', 'ó', 'ô', 'ö', 'œ', 'ù', 'ú', 'û', 'ü', 'ÿ']

/-- Character class of the given-name tail
`[a-zàáâäæèéêëìíîïòóôöœùúûüÿ\s\-]` (group 3 of the header regex). -/
def inNameCls (c : Char) : Bool :=
  ('a' ≤ c && c ≤ 'z') || accentChars.contains c || c.isWhitespace || c = '-'

/-- Character class of the constructor block `[A-Z\s\-]` (group 4 of the
header regex). -/
def inMakeCls (c : Char) : Bool :=
  isUpperAZ c || c.isWhitespace || c = '-'

/-- Backtracking helper: try consuming `k, k-1, …, 1` characters of `cs`
(longest first, mirroring a greedy `+` quantifier) and hand the split to
the continuation, returning its first success. -/
def tryLens {α : Type} (cs : List Char) (cont : List Char → List Char → Option α) :
    ℕ → Option α
  | 0 => none
  | k + 1 =>
    match cont (cs.take (k + 1)) (cs.drop (k + 1)) with
    | some r => some r
    | none => tryLens cs cont k

/-- Greedy `cls+` quantifier with backtracking: consume a maximal run of
`cls` characters, retrying with shorter runs on failure of the rest of
the pattern. -/
def tryGreedy {α : Type} (cls : Char → Bool) (cs : List Char)
    (cont : List Char → List Char → Option α) : Option α :=
  tryLens cs cont ((cs.takeWhile cls).length)

/-- Ordinal suffix alternative `(?:st|nd|rd|th)` of the header regex. -/
def matchOrdinal : List Char → Option (List Char)
  | 's' :: 't' :: r => some r
  | 'n' :: 'd' :: r => some r
  | 'r' :: 'd' :: r => some r
  | 't' :: 'h' :: r => some r
  | _ => none

/-- Match of the rider-header regex
`(\d+(?:st|nd|rd|th))\s+(\d+)\s+([A-Z][a-z…\s\-]+)\s+([A-Z\s\-]+)\s+([A-Z]{3})`
anchored at the start of `cs`, returning the characters captured by
group 3 (the given-name block).  The `\d+`/`\s+` runs before group 3
are deterministic (their follow sets are disjoint from their classes);
groups 3 and 4 overlap with `\s`, so they backtrack greedily exactly as
the Python `re` engine does. -/
def matchHeaderAt (cs : List Char) : Option (List Char) :=
  let ds := cs.takeWhile isDig
  if ds.isEmpty then none
  else
    match matchOrdinal (cs.drop ds.length) with
    | none => none
    | some r1 =>
      let w1 := r1.takeWhile isWS
      if w1.isEmpty then none
      else
        let r2 := r1.drop w1.length
        let d2 := r2.takeWhile isDig
        if d2.isEmpty then none
        else
          let r3 := r2.drop d2.length
          let w2 := r3.takeWhile isWS
          if w2.isEmpty then none
          else
            match r3.drop w2.length with
            | [] => none
            | c :: r5 =>
              if ¬ (isUpperAZ c) then none
              else
                tryGreedy inNameCls r5 (fun g3tail r6 =>
                  tryGreedy isWS r6 (fun _ r7 =>
                    tryGreedy inMakeCls r7 (fun _ r8 =>
                      tryGreedy isWS r8 (fun _ r9 =>
                        match r9 with
                        | a :: b :: c3 :: _ =>
                          if isUpperAZ a && isUpperAZ b && isUpperAZ c3 then
                            some (c :: g3tail)
                          else none
                        | _ => none))))

/-- Leftmost `re.search` scan: try the anchored header match at every
start position, left to right. -/
def searchHeader : List Char → Option (List Char)
  | [] => none
  | c :: rest =>
    match matchHeaderAt (c :: rest) with
    | some g => some g
    | none => searchHeader rest

/-- Model of `MotoGPLineParser._extract_rider_info_from_text` reduced to
the `name` component (the only one consumed by the line loop): on a
regex match, group 3 is stripped and split; with two or more tokens the
name is `first last…`, with one token the trailing space is stripped
away again. -/
def _extract_rider_info_from_text (s : String) : Option String :=
  (searchHeader s.data).map (fun g3 =>
    let ps := (pySplit (pyStripL g3)).map String.mk
    match ps with
    | [] => ("")
    | [f] => f
    | f :: rest => f ++ (" ") ++ (String.intercalate (" ") rest))

/-- Structured result of `_parse_lap_line`. -/
structure LapLineData where
  lap : ℤ
  time : String
  sectors : List String
  speed : Option String
deriving DecidableEq

/-- Model of `MotoGPLineParser._parse_lap_line` from
`src/scraper/pdf_parser.py`: split on whitespace; need at least 7
tokens; token 0 must parse as an integer; token 1 must contain an
apostrophe; tokens 2–5 are the sector strings; the last token is the
speed. -/
def _parse_lap_line (line : String) : Option LapLineData :=
  let parts := (pySplit line.data).map String.mk
  if parts.length < 7 then none
  else
    match pyInt (parts.getD 0 ("")) with
    | none => none
    | some lap_num =>
      let lap_time := parts.getD 1 ("")
      if lap_time.data.any (· = apos) then
        some { lap := lap_num, time := lap_time,
               sectors := (parts.drop 2).take 4, speed := parts.getLast? }
      else none

/-- Lap record emitted by the line loop of `parse_pdf_analysis`
(the dict with keys `rider`, `lap`, `raw_time`, `adj_time`,
`sectors`). -/
structure LapRec where
  rider : String
  lap : ℤ
  raw_time : ℚ
  adj_time : ℚ
  sectors : List String
deriving DecidableEq

/-- One step of the line loop of `parse_pdf_analysis`
(`src/scraper/pdf_parser.py`): strip the line; skip if empty; a header
match replaces the current rider; a boilerplate line is skipped; a lap
line with a truthy parsed time and a truthy current rider emits a
record (Python truthiness: `None` and `0.0` raw times are dropped, as
is an empty rider string). -/
def processLine (total_laps : ℤ) (st : Option String) (line : String) :
    Option String × Option LapRec :=
  let l := pyStrip line
  if l = ("") then (st, none)
  else
    match _extract_rider_info_from_text l with
    | some name => (some name, none)
    | none =>
      if isIgnored l then (st, none)
      else
        match _parse_lap_line l with
        | none => (st, none)
        | some ld =>
          match st with
          | none => (st, none)
          | some rider =>
            if rider = ("") then (st, none)
            else
              match _convert_time_to_seconds ld.time with
              | none => (st, none)
              | some t =>
                if t = 0 then (st, none)
                else
                  (st, some { rider := rider, lap := ld.lap, raw_time := t,
                              adj_time := calculate_fuel_adjusted_time t ld.lap total_laps,
                              sectors := ld.sectors.take 4 })

/-- Fold of `processLine` over the lines of a document, threading the
current-rider state and collecting emitted records in order. -/
def parseLines (total_laps : ℤ) : Option String → List String → List LapRec
  | _, [] => []
  | st, l :: ls =>
    match processLine total_laps st l with
    | (st2, some r) => r :: parseLines total_laps st2 ls
    | (st2, none) => parseLines total_laps st2 ls

/-- Model of `MotoGPLineParser.parse_pdf_analysis` restricted to its
core line loop (PDF extraction is an out-of-scope collaborator; the
input is the extracted line sequence). -/
def parse_pdf_analysis (lines : List String) (total_laps : ℤ) : List LapRec :=
  parseLines total_laps none lines

/-- Line classified as a lap row by the loop of `parse_pdf_analysis`:
nonempty after stripping, not a rider header, not boilerplate, and
accepted by `_parse_lap_line`. -/
def classifiedLapRow (line : String) : Bool :=
  pyStrip line ≠ ("") && (_extract_rider_info_from_text (pyStrip line)).isNone &&
    !(isIgnored (pyStrip line)) && (_parse_lap_line (pyStrip line)).isSome

/-- Integer part of Python `round(x)`: round half to even (banker's
rounding), as Python does on exact values.  (Binary floating-point
representation error is not modelled.) -/
def pyRoundInt {α : Type} [LinearOrderedField α] [FloorRing α] (x : α) : ℤ :=
  if Int.fract x < 1/2 then ⌊x⌋
  else if 1/2 < Int.fract x then ⌊x⌋ + 1
  else if ⌊x⌋ % 2 = 0 then ⌊x⌋ else ⌊x⌋ + 1

/-- Model of Python `round(x, nd)`: banker's rounding at the `nd`-th
decimal. -/
def pyRound {α : Type} [LinearOrderedField α] [FloorRing α] (nd : ℕ) (x : α) : α :=
  (pyRoundInt (x * 10 ^ nd) : ℤ) / 10 ^ nd

/-- Lexicographic strict order on character lists by code point,
modelling string comparison as used by pandas group-key sorting. -/
def lexLtChars : List Char → List Char → Bool
  | [], [] => false
  | [], _ :: _ => true
  | _ :: _, [] => false
  | a :: as, b :: bs =>
    if a.toNat < b.toNat then true
    else if b.toNat < a.toNat then false
    else lexLtChars as bs

/-- Non-strict string comparison derived from `lexLtChars`. -/
def strLe (a b : String) : Bool := !(lexLtChars b.data a.data)

/-- First-occurrence deduplication, modelling Python dict insertion
order over row iteration. -/
def uniqueKeys (l : List String) : List String :=
  l.foldl (fun acc r => if r ∈ acc then acc else acc ++ [r]) []

/-- Sorted group keys, modelling `DataFrame.groupby` (which sorts keys
by default).  A stable structural sort is used. -/
def sortStrings (l : List String) : List String :=
  l.insertionSort (fun a b => strLe a b = true)

/-- Arithmetic mean of a rational list (`Series.mean`); division by zero
for the empty list follows the Lean `0` convention and is never reached
by the analytics below. -/
def qMean (l : List ℚ) : ℚ := l.sum / l.length

/-- Arithmetic mean of a real list (`Series.mean` over real-valued
columns). -/
noncomputable def rMean (l : List ℝ) : ℝ := l.sum / l.length

/-- Sample standard deviation (`Series.std`, `ddof=1`) of a rational
list, as a real number.  For a single-element list pandas yields `NaN`;
here the division-by-zero convention yields `0`; no verified property
depends on that value. -/
noncomputable def sampleStd (l : List ℚ) : ℝ :=
  Real.sqrt (((l.map (fun x => ((x : ℝ) - ((qMean l : ℚ) : ℝ)) ^ 2)).sum) /
    ((l.length : ℝ) - 1))

/-- Minimum of a rational list (`Series.min`), `0` on the empty list
(never reached: callers guard on nonemptiness). -/
def seriesMin : List ℚ → ℚ
  | [] => 0
  | x :: xs => xs.foldl min x

/-- Maximum of a rational list (`Series.max`). -/
def seriesMax : List ℚ → ℚ
  | [] => 0
  | x :: xs => xs.foldl max x

/-- Label of the first minimum of a labelled series, modelling pandas
`Series.idxmin` (which returns the index label of the first occurrence
of the minimum, not the positional index). -/
def idxmin : List (ℕ × ℚ) → ℕ
  | [] => 0
  | p :: ps => (ps.foldl (fun a q => if q.2 < a.2 then q else a) p).1

/-- Row of a parsed session DataFrame as consumed by the ISD analyzer
(columns `rider`, `lap`, `raw_time`, `adj_time`). -/
structure SessionRow where
  rider : String
  lap : ℤ
  raw_time : ℚ
  adj_time : ℚ
deriving DecidableEq

/-- Result dict of `ISDAnalyzer.calculate_isd_metrics`. -/
structure IsdMetrics where
  best_lap : ℚ
  final_lap : ℚ
  first_lap : ℚ
  avg_lap : ℚ
  isd : ℚ
  lap_of_best : ℕ
  laps_after_best : ℤ
  degrade_rate : ℚ
  consistency : ℝ
  warm_up_time : ℚ
  total_laps : ℕ

/-- Model of `ISDAnalyzer.calculate_isd_metrics` from
`src/ml_engine/features/isd.py` on a labelled lap-time series: fewer
than 2 laps yield no result; `lap_of_best` is the `idxmin` label;
`laps_after_best = len − lap_of_best − 1` (an integer that can go
negative when labels exceed positions); `degrade_rate = isd /
laps_after_best` when that is positive, else `0`. -/
noncomputable def calculate_isd_metrics (lap_times : List (ℕ × ℚ)) : Option IsdMetrics :=
  if lap_times.length < 2 then none
  else
    let vals := lap_times.map (·.2)
    let best := seriesMin vals
    let first := vals.headD 0
    let final := vals.getLastD 0
    let avg := qMean vals
    let isd := final - best
    let lob := idxmin lap_times
    let lab : ℤ := (lap_times.length : ℤ) - lob - 1
    some { best_lap := best, final_lap := final, first_lap := first, avg_lap := avg,
           isd := isd, lap_of_best := lob, laps_after_best := lab,
           degrade_rate := if 0 < lab then isd / (lab : ℚ) else 0,
           consistency := sampleStd vals,
           warm_up_time := first - best, total_laps := lap_times.length }

/-- Row of the per-session ISD result DataFrame built by
`ISDAnalyzer.analyze_session` (rounded presentation fields). -/
structure IsdRow where
  rider : String
  best_lap : ℚ
  final_lap : ℚ
  first_lap : ℚ
  avg_lap : ℚ
  isd : ℚ
  lap_of_best : ℤ
  laps_after_best : ℤ
  degrade_rate : ℚ
  consistency : ℝ
  warm_up_time : ℚ
  total_laps : ℕ
  session_type : String

/-- Model of `ISDAnalyzer.analyze_session` from
`src/ml_engine/features/isd.py`: group the session rows by rider
(keys sorted, original DataFrame labels preserved), sort each group by
lap number, compute the metrics on the `adj_time` series, round the
presentation fields, and sort the result rows by `ISD`. -/
noncomputable def analyze_session (session : List SessionRow) (session_type : String) :
    List IsdRow :=
  let keys := sortStrings (uniqueKeys (session.map (·.rider)))
  let rows := keys.filterMap (fun r =>
    let grp := session.enum.filter (fun p => p.2.rider = r)
    let grpSorted := grp.insertionSort (fun a b => a.2.lap ≤ b.2.lap)
    let series := grpSorted.map (fun p => (p.1, p.2.adj_time))
    (calculate_isd_metrics series).map (fun m =>
      { rider := r, best_lap := pyRound 3 m.best_lap, final_lap := pyRound 3 m.final_lap,
        first_lap := pyRound 3 m.first_lap, avg_lap := pyRound 3 m.avg_lap,
        isd := pyRound 3 m.isd, lap_of_best := (m.lap_of_best : ℤ),
        laps_after_best := m.laps_after_best,
        degrade_rate := pyRound 4 m.degrade_rate,
        consistency := pyRound 3 m.consistency,
        warm_up_time := pyRound 3 m.warm_up_time,
        total_laps := m.total_laps, session_type := session_type }))
  rows.insertionSort (fun a b => a.isd ≤ b.isd)

/-- Row of the season statistics DataFrame built by
`ISDAnalyzer.get_season_statistics`. -/
structure SeasonStat where
  rider : String
  rounds : ℕ
  avg_isd : ℚ
  std_isd : ℝ
  min_isd : ℚ
  max_isd : ℚ
  avg_best_lap : ℚ
  avg_final_lap : ℚ
  avg_consistency : ℝ
  avg_degrade_rate : ℚ
  avg_laps_completed : ℚ
  finishes : ℕ
  dnfs : ℕ

/-- Model of `ISDAnalyzer.get_season_statistics` from
`src/ml_engine/features/isd.py`: per rider (group keys sorted), count
DNFs as rounds with `Total_Laps < 20` and finishes as rounds with
`Total_Laps ≥ 20`, average the metric columns, and sort rows by
`Avg_ISD`. -/
noncomputable def get_season_statistics (isd_df : List IsdRow) : List SeasonStat :=
  if isd_df.isEmpty then []
  else
    let keys := sortStrings (uniqueKeys (isd_df.map (·.rider)))
    let stats : List SeasonStat := keys.map (fun r =>
      let grp := isd_df.filter (fun row => row.rider = r)
      let isds := grp.map (·.isd)
      { rider := r, rounds := grp.length,
        avg_isd := pyRound 3 (qMean isds),
        std_isd := pyRound 3 (sampleStd isds),
        min_isd := pyRound 3 (seriesMin isds),
        max_isd := pyRound 3 (seriesMax isds),
        avg_best_lap := pyRound 3 (qMean (grp.map (·.best_lap))),
        avg_final_lap := pyRound 3 (qMean (grp.map (·.final_lap))),
        avg_consistency := pyRound 3 (rMean (grp.map (·.consistency))),
        avg_degrade_rate := pyRound 4 (qMean (grp.map (·.degrade_rate))),
        avg_laps_completed := pyRound 1 (qMean (grp.map (fun row => (row.total_laps : ℚ)))),
        finishes := grp.countP (fun row => 20 ≤ row.total_laps),
        dnfs := grp.countP (fun row => row.total_laps < 20) })
    stats.insertionSort (fun a b => a.avg_isd ≤ b.avg_isd)

/-- Per-rider counters and derived risk fields built by
`ISDAnalyzer.identify_dnf_risk`. -/
structure RiskProfile where
  early_exits : ℕ
  high_degrade : ℕ
  inconsistent : ℕ
  rounds : ℕ
  risk_score : ℚ
  risk_level : String

/-- Counter accumulation loop of `ISDAnalyzer.identify_dnf_risk`: one
pass over the rows, incrementing `early_exits` when `Total_Laps < 20`,
`high_degrade` when `Degrade_Rate > 0.15`, `inconsistent` when
`Consistency > 1.0`, and `rounds` on every row. -/
noncomputable def riskCountsFold (rows : List IsdRow) : ℕ × ℕ × ℕ × ℕ :=
  rows.foldl (fun acc row =>
    (acc.1 + (if row.total_laps < 20 then 1 else 0),
     acc.2.1 + (if (0.15 : ℚ) < row.degrade_rate then 1 else 0),
     acc.2.2.1 + (if (1 : ℝ) < row.consistency then 1 else 0),
     acc.2.2.2 + 1)) (0, 0, 0, 0)

/-- Model of `ISDAnalyzer.identify_dnf_risk` from
`src/ml_engine/features/isd.py`: riders keyed in first-appearance
order (Python dict insertion order); counters as in `riskCountsFold`;
`score = 30·early + 15·degrade + 10·inconsistent`; `risk_score =
(score/(rounds·100))·100` when `rounds > 0` else `0`; level `CRITICAL`
above 50, `HIGH` above 30, else `LOW`. -/
noncomputable def identify_dnf_risk (isd_df : List IsdRow) : List (String × RiskProfile) :=
  (uniqueKeys (isd_df.map (·.rider))).map (fun r =>
    let c := riskCountsFold (isd_df.filter (fun row => row.rider = r))
    let score : ℚ := 30 * c.1 + 15 * c.2.1 + 10 * c.2.2.1
    let pct : ℚ := if 0 < c.2.2.2 then (score / ((c.2.2.2 : ℚ) * 100)) * 100 else 0
    (r, { early_exits := c.1, high_degrade := c.2.1, inconsistent := c.2.2.1,
          rounds := c.2.2.2, risk_score := pct,
          risk_level := if 50 < pct then ("🔴 CRITICAL")
            else if 30 < pct then ("⚠️  HIGH") else ("✅ LOW") }))

/-- Risk score formula as stated by the specification:
`score = 30×early_exits + 15×high_degrade_rounds +
10×inconsistent_rounds`. -/
def spec_risk_score (e h i : ℕ) : ℚ := 30 * e + 15 * h + 10 * i

/-- Risk percentage formula as stated by the specification:
`risk_percentage = 100 × score / (rounds × 100)`. -/
def spec_risk_percentage (score : ℚ) (rounds : ℕ) : ℚ :=
  100 * score / ((rounds : ℚ) * 100)

/-- Row of a parsed DataFrame as consumed by the QRD analyzer (only the
`rider` and `raw_time` columns are read). -/
structure QrdEntry where
  rider : String
  raw_time : ℚ
deriving DecidableEq

/-- Row of the per-round QRD result DataFrame built by
`QRDAnalyzer.analyze_round`. -/
structure QrdRow where
  round : ℕ
  circuit : String
  rider : String
  qual_best_lap : ℚ
  race_best_lap : ℚ
  qrd : ℚ
  qual_laps : ℕ
  race_laps : ℕ
  status : String
deriving DecidableEq

/-- Model of `QRDAnalyzer.calculate_qrd` from
`src/ml_engine/features/qrd.py`. -/
def calculate_qrd (qual_best race_best : ℚ) : ℚ := qual_best - race_best

/-- Best (minimum) raw time of a rider in a DataFrame, `none` when the
rider has no rows (the rider is absent from the groupby dict). -/
def minTimeOf (df : List QrdEntry) (r : String) : Option ℚ :=
  match (df.filter (fun e => e.rider = r)).map (·.raw_time) with
  | [] => none
  | x :: xs => some (xs.foldl min x)

/-- Model of `QRDAnalyzer.analyze_round` from
`src/ml_engine/features/qrd.py`: with both documents nonempty, for
each rider of the qualifying groupby dict (keys sorted) that also
appears in the race dict, emit one row with the rounded best laps,
`qrd = qual_best − race_best` rounded to 3 decimals, the lap counts,
and status `Finished` when `race_laps > 20` else `DNF`.  The Python
`None` result for missing data is flattened to the empty row list. -/
def qrd_analyze_round (round_num : ℕ) (circuit : String)
    (qual race : List QrdEntry) : List QrdRow :=
  if qual.isEmpty || race.isEmpty then []
  else
    (sortStrings (uniqueKeys (qual.map (·.rider)))).filterMap (fun r =>
      match minTimeOf qual r, minTimeOf race r with
      | some qb, some rb =>
        let race_laps := (race.filter (fun e => e.rider = r)).length
        some { round := round_num, circuit := circuit, rider := r,
               qual_best_lap := pyRound 3 qb, race_best_lap := pyRound 3 rb,
               qrd := pyRound 3 (calculate_qrd qb rb),
               qual_laps := (qual.filter (fun e => e.rider = r)).length,
               race_laps := race_laps,
               status := if 20 < race_laps then ("Finished") else ("DNF") }
      | _, _ => none)

/-- Z-score threshold default of `filter_clean_air_laps`
(`threshold_z = 1.8`). -/
noncomputable def threshold_z : ℝ := 1.8

/-- Per-lap labelling step of `filter_clean_air_laps`: a truthy
adjusted time is clean-air iff its z-score against the supplied mean
and standard deviation is below the threshold; a missing (`None`) or
zero time is labelled `False` in this branch. -/
noncomputable def cleanFlag (mean_pace std_pace : ℝ) : Option ℝ → Bool
  | some v => if v = 0 then false else decide ((v - mean_pace) / (std_pace + 1e-6) < threshold_z)
  | none => false

/-- Mean of a real list, as computed by `np.mean`. -/
noncomputable def np_mean (xs : List ℝ) : ℝ := xs.sum / xs.length

/-- Population standard deviation, as computed by `np.std`
(`ddof = 0`). -/
noncomputable def np_std (xs : List ℝ) : ℝ :=
  Real.sqrt (((xs.map (fun x => (x - np_mean xs) ^ 2)).sum) / xs.length)

/-- Model of `MotoGPTaskRunner.filter_clean_air_laps` from
`src/scraper/task_runner.py`, reduced to the `adj_time` column it
reads and the `is_clean_air` flags it writes: collect the non-`None`
times; with fewer than 5 of them label every lap clean-air; otherwise
label each lap by `cleanFlag` against the mean and population standard
deviation of the collected times. -/
noncomputable def filter_clean_air_laps (lap_data : List (Option ℝ)) : List Bool :=
  if (lap_data.filterMap id).length < 5 then lap_data.map (fun _ => true)
  else lap_data.map (cleanFlag (np_mean (lap_data.filterMap id))
    (np_std (lap_data.filterMap id)))

/-- Demo rider header line (format from the `_extract_rider_info_from_text`
docstring). -/
def demoHeader : String := "1st 1 Francesco BAGNAIA DUCATI ITA"

/-- Demo lap line (format from the `_parse_lap_line` docstring). -/
def demoLapLine : String :=
  "8   1" ++ aposS ++ "30.590  20.267 24.303 21.725 24.295 321.3"

/-- Lap line whose time token parses to `0.0` seconds — a value Python
truthiness drops. -/
def zeroTimeLapLine : String := "1 0" ++ aposS ++ "0 a b c d e"

/-- Lap line with lap number `0` (accepted by `int(parts[0])`). -/
def lapZeroLine : String := "0 1" ++ aposS ++ "30.0 a b c d x"

/-- Lap line whose time token has negative minutes (accepted by
`int("-1")`), so the parsed raw time is negative. -/
def lapNegLine : String := "5 -1" ++ aposS ++ "30.0 a b c d x"

/-- Input lines for the C6 counterexample: a rider header followed by a
lap with lap number `0` and a lap with a negative raw time. -/
def c6Lines : List String := [demoHeader, lapZeroLine, lapNegLine]

/-- Input lines for the C6 witness: a rider header and one well-formed
lap line. -/
def c6WitnessLines : List String := [demoHeader, demoLapLine]

/-- Record emitted for `demoLapLine` after `demoHeader` with
`total_laps = 27`: raw `90.590`, fuel adjustment
`0.035 × (27 − 8) × 0.7 = 0.4655`. -/
def c6Rec : LapRec :=
  { rider := ("Francesco"), lap := 8, raw_time := 90.590, adj_time := 90.1245,
    sectors := ["20.267", "24.303", "21.725", "24.295"] }

/-- ISD season row demo: a finished round (27 laps). -/
noncomputable def c2Row27 : IsdRow :=
  { rider := ("Aleix"), best_lap := 89, final_lap := 90, first_lap := 91,
    avg_lap := 90, isd := 1, lap_of_best := 5, laps_after_best := 21,
    degrade_rate := 0.01, consistency := 0.5, warm_up_time := 2,
    total_laps := 27, session_type := ("race") }

/-- ISD season row demo: an early exit (5 laps). -/
noncomputable def c2Row5 : IsdRow :=
  { rider := ("Aleix"), best_lap := 89, final_lap := 92, first_lap := 91,
    avg_lap := 90, isd := 3, lap_of_best := 1, laps_after_best := 3,
    degrade_rate := 1, consistency := 2, warm_up_time := 2,
    total_laps := 5, session_type := ("race") }

/-- Two-round demo season for one rider: one finish, one DNF. -/
noncomputable def c2IsdRows : List IsdRow := [c2Row27, c2Row5]

/-- Qualifying document demo for the C2 counterexample. -/
def c2Qual : List QrdEntry := [{ rider := ("Aleix"), raw_time := 89 }]

/-- Race document demo with exactly 20 laps for the one rider — the
boundary case of the DNF rule. -/
def c2Race : List QrdEntry := List.replicate 20 { rider := ("Aleix"), raw_time := 90 }

/-- Session demo for C3: rider `A` occupies DataFrame labels 0–1, rider
`B` labels 2–4 with the specification's example lap times
`[90, 89, 91]`. -/
def c3Session : List SessionRow :=
  [{ rider := ("A"), lap := 1, raw_time := 90, adj_time := 90 },
   { rider := ("A"), lap := 2, raw_time := 89, adj_time := 89 },
   { rider := ("B"), lap := 1, raw_time := 90, adj_time := 90 },
   { rider := ("B"), lap := 2, raw_time := 89, adj_time := 89 },
   { rider := ("B"), lap := 3, raw_time := 91, adj_time := 91 }]

/-- Single-rider session holding exactly the specification's ISD example
series `[90, 89, 91]` at DataFrame labels 0–2. -/
def c3SoloSession : List SessionRow :=
  [{ rider := ("A"), lap := 1, raw_time := 90, adj_time := 90 },
   { rider := ("A"), lap := 2, raw_time := 89, adj_time := 89 },
   { rider := ("A"), lap := 3, raw_time := 91, adj_time := 91 }]

/-- Qualifying demo for C9: rider `B` qualifies but does not race. -/
def c9Qual : List QrdEntry :=
  [{ rider := ("A"), raw_time := 89 }, { rider := ("B"), raw_time := 95 }]

/-- Race demo for C9. -/
def c9Race : List QrdEntry := [{ rider := ("A"), raw_time := 90 }]

/-- Qualifying demo whose best lap has a fourth decimal, exposing the
3-decimal rounding of the stored QRD value. -/
def c9xQual : List QrdEntry := [{ rider := ("A"), raw_time := 89.0004 }]

/-- Race demo for the C9 rounding counterexample. -/
def c9xRace : List QrdEntry := [{ rider := ("A"), raw_time := 89 }]

/-- Traffic-classifier demo: four uniform laps and one extreme slow
outlier (mean 92, population std 4). -/
noncomputable def c8Outlier : List (Option ℝ) :=
  [some 90, some 90, some 90, some 90, some 100]

/-- Traffic-classifier demo with a `0.0` adjusted time among five
usable times (mean 72, population std 36). -/
noncomputable def c8Zero : List (Option ℝ) :=
  [some 0, some 90, some 90, some 90, some 90]

/-- Traffic-classifier demo for C10: a missing and a zero time among
six usable times. -/
noncomputable def c10Laps : List (Option ℝ) :=
  [none, some 0, some 90, some 90, some 91, some 92, some 89]

/-- Placeholder lap record used only to state closed facts about the
head of a result list. -/
def dummyLapRec : LapRec :=
  { rider := (""), lap := 0, raw_time := 0, adj_time := 0, sectors := [] }

/-- Placeholder QRD row used only to state closed boundary facts about
the head of a result list. -/
def dummyQrdRow : QrdRow :=
  { round := 0, circuit := (""), rider := (""), qual_best_lap := 0,
    race_best_lap := 0, qrd := 0, qual_laps := 0, race_laps := 0,
    status := ("") }

/-- Membership in the fold underlying `uniqueKeys`. -/
theorem mem_uniqueKeys_fold (l : List String) (acc : List String) (r : String) :
    (r ∈ l.foldl (fun a x => if x ∈ a then a else a ++ [x]) acc) ↔
      r ∈ acc ∨ r ∈ l := by
  induction l generalizing acc with
  | nil => simp
  | cons a t ih =>
    simp only [List.foldl_cons]
    rw [ih]
    by_cases h : a ∈ acc
    · rw [if_pos h]
      simp only [List.mem_cons]
      constructor
      · rintro (hr | hr)
        · exact Or.inl hr
        · exact Or.inr (Or.inr hr)
      · rintro (hr | hr | hr)
        · exact Or.inl hr
        · exact Or.inl (hr ▸ h)
        · exact Or.inr hr
    · rw [if_neg h]
      simp only [List.mem_append, List.mem_singleton, List.mem_cons]
      tauto

/-- Membership in `uniqueKeys` is membership in the original list. -/
theorem mem_uniqueKeys (l : List String) (r : String) :
    r ∈ uniqueKeys l ↔ r ∈ l := by
  unfold uniqueKeys
  rw [mem_uniqueKeys_fold]
  simp

/-- Duplicate-freeness of the fold underlying `uniqueKeys`. -/
theorem nodup_uniqueKeys_fold (l : List String) (acc : List String)
    (hacc : acc.Nodup) :
    (l.foldl (fun a x => if x ∈ a then a else a ++ [x]) acc).Nodup := by
  induction l generalizing acc with
  | nil => simpa
  | cons a t ih =>
    simp only [List.foldl_cons]
    by_cases h : a ∈ acc
    · rw [if_pos h]
      exact ih acc hacc
    · rw [if_neg h]
      refine ih _ ?_
      simp [List.nodup_append, hacc, h]

/-- The key list produced by `uniqueKeys` has no duplicates. -/
theorem nodup_uniqueKeys (l : List String) : (uniqueKeys l).Nodup :=
  nodup_uniqueKeys_fold l [] (List.nodup_nil)

/-- Membership is preserved by `sortStrings`. -/
theorem mem_sortStrings (l : List String) (r : String) :
    r ∈ sortStrings l ↔ r ∈ l :=
  (List.perm_insertionSort _ l).mem_iff

/-- Duplicate-freeness is preserved by `sortStrings`. -/
theorem nodup_sortStrings (l : List String) (h : l.Nodup) :
    (sortStrings l).Nodup :=
  ((List.perm_insertionSort _ l).nodup_iff).mpr h

/-- C1: the Fuel Normalizer computes
`adjusted = raw − 0.035 × (total_laps − lap_number) × 0.7`; at
`lap_number = total_laps` the adjusted time equals the raw time, and for
`lap_number > total_laps` no clamping occurs, so the adjusted time
strictly exceeds the raw time. -/
theorem C1_fuel_normalizer_spec :
    ∀ (raw : ℚ) (lap total : ℤ),
      calculate_fuel_adjusted_time raw lap total
          = raw - 0.035 * (((total : ℚ) - (lap : ℚ)) * 0.7)
        ∧ (lap = total → calculate_fuel_adjusted_time raw lap total = raw)
        ∧ (total < lap → raw < calculate_fuel_adjusted_time raw lap total) := by
  intro raw lap total
  refine ⟨?_, ?_, ?_⟩
  · unfold calculate_fuel_adjusted_time time_gain_per_liter fuel_burn_rate
    push_cast
    ring
  · intro h
    subst h
    unfold calculate_fuel_adjusted_time
    simp
  · intro h
    have h0 : (total - lap : ℤ) ≤ -1 := by omega
    have h1 : ((total - lap : ℤ) : ℚ) ≤ -1 := by exact_mod_cast h0
    unfold calculate_fuel_adjusted_time time_gain_per_liter fuel_burn_rate
    nlinarith [h1]

/-- C1 witness: at `raw = 100`, `lap = total = 27` the adjusted time is
the raw time; at `lap = 28 > total = 27` it strictly exceeds it. -/
theorem C1_fuel_normalizer_spec_witness :
    calculate_fuel_adjusted_time 100 27 27 = 100
      ∧ (100 : ℚ) < calculate_fuel_adjusted_time 100 28 27 :=
  ⟨(C1_fuel_normalizer_spec 100 27 27).2.1 rfl,
   (C1_fuel_normalizer_spec 100 28 27).2.2 (by decide)⟩

/-- C7: the Time Codec parses `1'30.590` to `90.590` and `89.5` to
`89.5`, fails on `1'` and on the empty string, and strips annotation
markers, so `1'30.590*` also parses to `90.590`. -/
theorem C7_time_codec_examples :
    _convert_time_to_seconds (("1") ++ aposS ++ ("30.590")) = some 90.590
      ∧ _convert_time_to_seconds ("89.5") = some 89.5
      ∧ _convert_time_to_seconds (("1") ++ aposS) = none
      ∧ _convert_time_to_seconds ("") = none
      ∧ _convert_time_to_seconds (("1") ++ aposS ++ ("30.590*")) = some 90.590 := by
  refine ⟨?_, ?_, by decide, by decide, ?_⟩
  · rw [show _convert_time_to_seconds (("1") ++ aposS ++ ("30.590"))
        = some ((((natOfDigits ['1'] : ℕ) : ℤ) : ℚ) * 60
            + 1 * ((natOfDigits ['3', '0'] : ℚ) + fracOfDigits ['5', '9', '0'])) from rfl]
    norm_num [show natOfDigits ['1'] = 1 from by decide,
      show natOfDigits ['3', '0'] = 30 from by decide,
      show natOfDigits ['5', '9', '0'] = 590 from by decide, fracOfDigits]
  · rw [show _convert_time_to_seconds ("89.5")
        = some (1 * ((natOfDigits ['8', '9'] : ℚ) + fracOfDigits ['5'])) from rfl]
    norm_num [show natOfDigits ['8', '9'] = 89 from by decide,
      show natOfDigits ['5'] = 5 from by decide, fracOfDigits]
  · rw [show _convert_time_to_seconds (("1") ++ aposS ++ ("30.590*"))
        = some ((((natOfDigits ['1'] : ℕ) : ℤ) : ℚ) * 60
            + 1 * ((natOfDigits ['3', '0'] : ℚ) + fracOfDigits ['5', '9', '0'])) from rfl]
    norm_num [show natOfDigits ['1'] = 1 from by decide,
      show natOfDigits ['3', '0'] = 30 from by decide,
      show natOfDigits ['5', '9', '0'] = 590 from by decide, fracOfDigits]

/-- Closed form of the risk-counter fold: the four components are the
three conditional counts and the row count. -/
theorem riskCountsFold_eq (rows : List IsdRow) :
    riskCountsFold rows
      = (rows.countP (fun row => decide (row.total_laps < 20)),
         rows.countP (fun row => decide ((0.15 : ℚ) < row.degrade_rate)),
         rows.countP (fun row => decide ((1 : ℝ) < row.consistency)),
         rows.length) := by
  suffices h : ∀ acc : ℕ × ℕ × ℕ × ℕ,
      rows.foldl (fun acc row =>
        (acc.1 + (if row.total_laps < 20 then 1 else 0),
         acc.2.1 + (if (0.15 : ℚ) < row.degrade_rate then 1 else 0),
         acc.2.2.1 + (if (1 : ℝ) < row.consistency then 1 else 0),
         acc.2.2.2 + 1)) acc
      = (acc.1 + rows.countP (fun row => decide (row.total_laps < 20)),
         acc.2.1 + rows.countP (fun row => decide ((0.15 : ℚ) < row.degrade_rate)),
         acc.2.2.1 + rows.countP (fun row => decide ((1 : ℝ) < row.consistency)),
         acc.2.2.2 + rows.length) by
    simpa [riskCountsFold] using h (0, 0, 0, 0)
  induction rows with
  | nil => intro acc; simp
  | cons a t ih =>
    intro acc
    simp only [List.foldl_cons, ih, List.countP_cons, List.length_cons,
      decide_eq_true_eq, Prod.mk.injEq]
    refine ⟨?_, ?_, ?_, ?_⟩ <;> (try split) <;> omega

/-- A key emitted by `uniqueKeys` over the rider column has a nonempty
row group. -/
theorem filter_rider_ne_nil {df : List IsdRow} {r : String}
    (h : r ∈ uniqueKeys (df.map (fun row => row.rider))) :
    df.filter (fun row => row.rider = r) ≠ [] := by
  rw [mem_uniqueKeys] at h
  obtain ⟨row, hrow, hr⟩ := List.mem_map.mp h
  intro hnil
  have : row ∈ df.filter (fun row => row.rider = r) :=
    List.mem_filter.mpr ⟨hrow, by simp [hr]⟩
  simp [hnil] at this


/-- Percentage formula bridge: the guarded Python expression equals the
specification formula when the round count is positive. -/
theorem risk_pct_eq (e hd inc L : ℕ) (hL : 0 < L) :
    (if 0 < L then ((30 * (e : ℚ) + 15 * (hd : ℚ) + 10 * (inc : ℚ))
        / ((L : ℚ) * 100)) * 100 else 0)
      = spec_risk_percentage (spec_risk_score e hd inc) L := by
  rw [if_pos hL]
  unfold spec_risk_percentage spec_risk_score
  ring

/-- C4: for every season DataFrame, `identify_dnf_risk` produces, per
rider, counters equal to the conditional counts over that rider's rows,
`risk_score = 100 × (30·early + 15·degrade + 10·inconsistent) /
(rounds × 100)`, and the Critical/High/Low level thresholds at 50 and
30; moreover the risk percentage never decreases when `early_exits` is
incremented with everything else fixed. -/
theorem C4_dnf_risk_formula :
    (∀ df : List IsdRow,
      (identify_dnf_risk df).map (fun rp =>
          (rp.1, rp.2.early_exits, rp.2.high_degrade, rp.2.inconsistent,
           rp.2.rounds, rp.2.risk_score, rp.2.risk_level))
        = (uniqueKeys (df.map (fun row => row.rider))).map (fun r =>
            let g := df.filter (fun row => row.rider = r)
            let e := g.countP (fun row => decide (row.total_laps < 20))
            let hd := g.countP (fun row => decide ((0.15 : ℚ) < row.degrade_rate))
            let inc := g.countP (fun row => decide ((1 : ℝ) < row.consistency))
            let pct := spec_risk_percentage (spec_risk_score e hd inc) g.length
            (r, e, hd, inc, g.length, pct,
             if 50 < pct then ("🔴 CRITICAL")
               else if 30 < pct then ("⚠️  HIGH") else ("✅ LOW"))))
      ∧ (∀ e hd inc rounds : ℕ,
          spec_risk_percentage (spec_risk_score e hd inc) rounds
            ≤ spec_risk_percentage (spec_risk_score (e + 1) hd inc) rounds) := by
  constructor
  · intro df
    unfold identify_dnf_risk
    rw [List.map_map]
    apply List.map_congr_left
    intro r hr
    have hne : df.filter (fun row => row.rider = r) ≠ [] := filter_rider_ne_nil hr
    have hlen : 0 < (df.filter (fun row => row.rider = r)).length :=
      List.length_pos.mpr hne
    simp only [Function.comp_apply, riskCountsFold_eq]
    rw [risk_pct_eq _ _ _ _ hlen]
  · intro e hd inc rounds
    unfold spec_risk_percentage spec_risk_score
    rcases Nat.eq_zero_or_pos rounds with h0 | hpos
    · subst h0
      simp
    · have hD : (0 : ℚ) ≤ (rounds : ℚ) * 100 := by positivity
      refine div_le_div_of_nonneg_right ?_ ?_ |>.trans_eq rfl
      · push_cast
        linarith
      · positivity

/-- C10: in the Traffic Classifier, when at least 5 laps have a usable
adjusted time, any lap whose adjusted time is missing (`None`) or equal
to `0.0` is labeled not clean-air. -/
theorem C10_zero_time_not_clean :
    ∀ (laps : List (Option ℝ)) (i : ℕ),
      5 ≤ (laps.filterMap id).length →
      (laps.getD i (some 1) = none ∨ laps.getD i (some 1) = some 0) →
      (filter_clean_air_laps laps).getD i true = false := by
  intro laps i h5 hnull
  unfold filter_clean_air_laps
  rw [if_neg (by omega)]
  rcases hx : laps[i]? with _ | x
  · rw [List.getD_eq_getElem?_getD, hx] at hnull
    simp at hnull
  · rw [List.getD_eq_getElem?_getD, List.getElem?_map, hx]
    rw [List.getD_eq_getElem?_getD, hx] at hnull
    simp only [Option.getD_some] at hnull
    rcases hnull with h | h
    · subst h
      simp [cleanFlag]
    · subst h
      simp [cleanFlag]

/-- C10 witness: in a seven-lap set with six usable times, the lap with
a missing time (index 0) and the lap with a `0.0` time (index 1) are
both labeled not clean-air. -/
theorem C10_zero_time_not_clean_witness :
    5 ≤ (c10Laps.filterMap id).length
      ∧ (filter_clean_air_laps c10Laps).getD 0 true = false
      ∧ (filter_clean_air_laps c10Laps).getD 1 true = false := by
  have h5 : 5 ≤ (c10Laps.filterMap id).length := by
    rw [show (c10Laps.filterMap id).length = 6 from rfl]
    omega
  exact ⟨h5, C10_zero_time_not_clean c10Laps 0 h5 (Or.inl rfl),
    C10_zero_time_not_clean c10Laps 1 h5 (Or.inr rfl)⟩

/-- Mean of the C8 outlier demo times. -/
theorem c8Outlier_mean : np_mean [(90 : ℝ), 90, 90, 90, 100] = 92 := by
  unfold np_mean
  norm_num

/-- Population standard deviation of the C8 outlier demo times. -/
theorem c8Outlier_std : np_std [(90 : ℝ), 90, 90, 90, 100] = 4 := by
  unfold np_std
  rw [c8Outlier_mean]
  norm_num
  rw [show (16 : ℝ) = 4 ^ 2 by norm_num]
  exact Real.sqrt_sq (by norm_num)

/-- C8 (amended): with fewer than 5 usable times every lap is labeled
clean-air; with at least 5, a lap with a nonzero usable time `t` is
clean-air iff `(t − mean)/(std + 1e-6) < 1.8` over the usable times
(laps with a missing or `0.0` time are labeled non-clean-air, see C10);
on `[90, 90, 90, 90, 100]` exactly the outlier is non-clean-air. -/
theorem C8_traffic_amended :
    (∀ laps : List (Option ℝ), (laps.filterMap id).length < 5 →
        filter_clean_air_laps laps = laps.map (fun _ => true))
      ∧ (∀ (laps : List (Option ℝ)) (i : ℕ) (t : ℝ),
          5 ≤ (laps.filterMap id).length →
          laps.getD i none = some t → t ≠ 0 →
          ((filter_clean_air_laps laps).getD i true = true ↔
            (t - np_mean (laps.filterMap id))
              / (np_std (laps.filterMap id) + 1e-6) < 1.8))
      ∧ filter_clean_air_laps c8Outlier = [true, true, true, true, false] := by
  refine ⟨?_, ?_, ?_⟩
  · intro laps h
    unfold filter_clean_air_laps
    rw [if_pos h]
  · intro laps i t h5 ht ht0
    unfold filter_clean_air_laps
    rw [if_neg (by omega)]
    rcases hx : laps[i]? with _ | x
    · rw [List.getD_eq_getElem?_getD, hx] at ht
      simp at ht
    · rw [List.getD_eq_getElem?_getD, hx, Option.getD_some] at ht
      subst ht
      rw [List.getD_eq_getElem?_getD, List.getElem?_map, hx]
      show cleanFlag _ _ (some t) = true ↔ _
      simp only [cleanFlag]
      rw [if_neg ht0, show (1.8 : ℝ) = threshold_z from rfl]
      exact ⟨of_decide_eq_true, decide_eq_true⟩
  · have htimes : c8Outlier.filterMap id = [(90 : ℝ), 90, 90, 90, 100] := rfl
    unfold filter_clean_air_laps
    rw [htimes, c8Outlier_mean, c8Outlier_std, if_neg (by norm_num)]
    show List.map (cleanFlag 92 4) c8Outlier = _
    unfold c8Outlier cleanFlag threshold_z
    simp only [List.map_cons, List.map_nil, List.cons.injEq, and_true]
    norm_num

/-- Mean of the C8 zero-time demo times. -/
theorem c8Zero_mean : np_mean [(0 : ℝ), 90, 90, 90, 90] = 72 := by
  unfold np_mean
  norm_num

/-- Population standard deviation of the C8 zero-time demo times. -/
theorem c8Zero_std : np_std [(0 : ℝ), 90, 90, 90, 90] = 36 := by
  unfold np_std
  rw [c8Zero_mean]
  norm_num
  rw [show (1296 : ℝ) = 36 ^ 2 by norm_num]
  exact Real.sqrt_sq (by norm_num)

/-- C8 counterexample: in `[0, 90, 90, 90, 90]` five laps have a usable
(non-`None`) time, the z-score of the `0.0` lap is below the 1.8
threshold, yet that lap is labeled not clean-air — so "clean-air iff
z < 1.8 for every usable time" fails as stated. -/
theorem C8_counterexample :
    5 ≤ (c8Zero.filterMap id).length
      ∧ c8Zero.getD 0 none = some 0
      ∧ ((0 : ℝ) - np_mean (c8Zero.filterMap id))
          / (np_std (c8Zero.filterMap id) + 1e-6) < 1.8
      ∧ (filter_clean_air_laps c8Zero).getD 0 true = false := by
  have htimes : c8Zero.filterMap id = [(0 : ℝ), 90, 90, 90, 90] := rfl
  have h5 : 5 ≤ (c8Zero.filterMap id).length := by
    rw [htimes]
    norm_num
  refine ⟨h5, rfl, ?_, ?_⟩
  · rw [htimes, c8Zero_mean, c8Zero_std]
    norm_num
  · unfold filter_clean_air_laps
    rw [if_neg (by omega)]
    show (cleanFlag _ _ (some 0) :: _).getD 0 true = false
    rw [List.getD_cons_zero]
    simp [cleanFlag]

/-- C8 witness: with a single lap the usable count is below 5, and the
lap is labeled clean-air. -/
theorem C8_witness :
    (([some (90 : ℝ)] : List (Option ℝ)).filterMap id).length < 5
      ∧ filter_clean_air_laps [some (90 : ℝ)] = [true] := by
  have h : (([some (90 : ℝ)] : List (Option ℝ)).filterMap id).length < 5 := by
    rw [show (([some (90 : ℝ)] : List (Option ℝ)).filterMap id).length = 1 from rfl]
    omega
  refine ⟨h, ?_⟩
  rw [C8_traffic_amended.1 [some (90 : ℝ)] h]
  rfl

/-- C2 (amended): season statistics count a round as DNF iff its lap
count is strictly below 20 (and as finished iff at least 20); the
DNF-risk early-exit counter uses the same strict rule; but the QRD
round status is `DNF` iff the race lap count is at most 20 (`Finished`
requires strictly more than 20), so the three components disagree at
exactly 20 laps. -/
theorem C2_dnf_rule_amended :
    (∀ (df : List IsdRow) (x : String × ℕ × ℕ),
        x ∈ (get_season_statistics df).map (fun st => (st.rider, st.finishes, st.dnfs)) →
          x.2.1 = (df.filter (fun row => row.rider = x.1)).countP
              (fun row => decide (20 ≤ row.total_laps))
            ∧ x.2.2 = (df.filter (fun row => row.rider = x.1)).countP
              (fun row => decide (row.total_laps < 20)))
      ∧ (∀ (df : List IsdRow) (y : String × ℕ),
          y ∈ (identify_dnf_risk df).map (fun rp => (rp.1, rp.2.early_exits)) →
            y.2 = (df.filter (fun row => row.rider = y.1)).countP
              (fun row => decide (row.total_laps < 20)))
      ∧ (∀ (rn : ℕ) (cir : String) (qual race : List QrdEntry) (row : QrdRow),
          row ∈ qrd_analyze_round rn cir qual race →
            (row.status = ("DNF") ↔ row.race_laps ≤ 20)) := by
  refine ⟨?_, ?_, ?_⟩
  · intro df x hx
    obtain ⟨st, hst, hproj⟩ := List.mem_map.mp hx
    subst hproj
    unfold get_season_statistics at hst
    by_cases hdf : df.isEmpty
    · rw [if_pos hdf] at hst
      simp at hst
    · rw [if_neg hdf] at hst
      have hst2 := (List.perm_insertionSort _ _).mem_iff.mp hst
      obtain ⟨r, hrk, hmk⟩ := List.mem_map.mp hst2
      subst hmk
      exact ⟨rfl, rfl⟩
  · intro df y hy
    obtain ⟨rp, hrp, hproj⟩ := List.mem_map.mp hy
    subst hproj
    unfold identify_dnf_risk at hrp
    obtain ⟨r, hrk, hmk⟩ := List.mem_map.mp hrp
    subst hmk
    show (riskCountsFold _).1 = _
    rw [riskCountsFold_eq]
  · intro rn cir qual race row hrow
    unfold qrd_analyze_round at hrow
    by_cases hemp : qual.isEmpty || race.isEmpty
    · rw [if_pos hemp] at hrow
      simp at hrow
    · rw [if_neg hemp] at hrow
      obtain ⟨k, hk, hgen⟩ := List.mem_filterMap.mp hrow
      rcases hq : minTimeOf qual k with _ | qb
      · rw [hq] at hgen
        rcases hr : minTimeOf race k with _ | rb <;> simp [hr] at hgen
      · rcases hr : minTimeOf race k with _ | rb
        · rw [hq, hr] at hgen
          simp at hgen
        · rw [hq, hr] at hgen
          simp only [Option.some.injEq] at hgen
          rw [← hgen]
          show ((if 20 < (race.filter (fun e => e.rider = k)).length
              then ("Finished") else ("DNF")) = ("DNF"))
              ↔ (race.filter (fun e => e.rider = k)).length ≤ 20
          by_cases h20 : 20 < (race.filter (fun e => e.rider = k)).length
          · rw [if_pos h20]
            constructor
            · intro habs
              exact absurd habs (by decide)
            · intro hle
              exact absurd hle (by omega)
          · rw [if_neg h20]
            constructor
            · intro _
              omega
            · intro _
              rfl

/-- C2 counterexample: a rider with exactly 20 race laps receives QRD
round status `DNF`, although their lap count is not strictly below
20 — the QRD component does not apply the strict-below-20 rule. -/
theorem C2_counterexample :
    ((qrd_analyze_round 1 ("VAL") c2Qual c2Race).map
        (fun row => (row.rider, row.race_laps, row.status)))
      = [(("Aleix"), 20, ("DNF"))]
      ∧ ¬ ((20 : ℕ) < 20) := by
  exact ⟨by decide, by omega⟩

/-- C2 witness: the head row of the boundary round is in the result
list, has 20 race laps, and the amended rule classifies it `DNF`. -/
theorem C2_witness :
    (qrd_analyze_round 1 ("VAL") c2Qual c2Race).headD dummyQrdRow
        ∈ qrd_analyze_round 1 ("VAL") c2Qual c2Race
      ∧ ((qrd_analyze_round 1 ("VAL") c2Qual c2Race).headD dummyQrdRow).race_laps ≤ 20
      ∧ ((qrd_analyze_round 1 ("VAL") c2Qual c2Race).headD dummyQrdRow).status = ("DNF") := by
  have hlen : (qrd_analyze_round 1 ("VAL") c2Qual c2Race).length = 1 := by decide
  have hmem : (qrd_analyze_round 1 ("VAL") c2Qual c2Race).headD dummyQrdRow
      ∈ qrd_analyze_round 1 ("VAL") c2Qual c2Race := by
    rcases hl : qrd_analyze_round 1 ("VAL") c2Qual c2Race with _ | ⟨a, t⟩
    · rw [hl] at hlen
      simp at hlen
    · simp
  have hle : ((qrd_analyze_round 1 ("VAL") c2Qual c2Race).headD dummyQrdRow).race_laps ≤ 20 := by
    decide
  exact ⟨hmem, hle,
    (C2_dnf_rule_amended.2.2 1 ("VAL") c2Qual c2Race _ hmem).mpr hle⟩

/-- A rider has a best time in a document iff the rider appears in it. -/
theorem minTimeOf_isSome (df : List QrdEntry) (r : String) :
    (minTimeOf df r).isSome = true ↔ r ∈ df.map QrdEntry.rider := by
  rcases hfil : df.filter (fun e => e.rider = r) with _ | ⟨e, es⟩
  · unfold minTimeOf
    rw [show (df.filter (fun e => e.rider = r)).map (fun e => e.raw_time) = []
      from by rw [hfil]; rfl]
    simp only [Option.isSome_none, Bool.false_eq_true, false_iff]
    intro hmem
    obtain ⟨e, he, hrid⟩ := List.mem_map.mp hmem
    have : e ∈ df.filter (fun e => e.rider = r) :=
      List.mem_filter.mpr ⟨he, by simp [hrid]⟩
    rw [hfil] at this
    simp at this
  · unfold minTimeOf
    rw [show (df.filter (fun e => e.rider = r)).map (fun e => e.raw_time)
        = e.raw_time :: es.map (fun e => e.raw_time) from by rw [hfil]; rfl]
    simp only [Option.isSome_some, true_iff]
    have he : e ∈ df.filter (fun e => e.rider = r) := by
      rw [hfil]
      simp
    have hef := List.mem_filter.mp he
    exact List.mem_map.mpr ⟨e, hef.1, by simpa using hef.2⟩

/-- Counting rows with a given rider in a keyed `filterMap` over
duplicate-free keys: one row when the rider is a key with a generated
row, none otherwise. -/
theorem countP_rider_filterMap (keys : List String) (hnd : keys.Nodup)
    (gen : String → Option QrdRow)
    (hgen : ∀ k row, gen k = some row → row.rider = k) (rider : String) :
    (keys.filterMap gen).countP (fun row => decide (row.rider = rider))
      = if rider ∈ keys ∧ (gen rider).isSome then 1 else 0 := by
  induction keys with
  | nil => simp
  | cons k t ih =>
    obtain ⟨hk, ht⟩ := List.nodup_cons.mp hnd
    simp only [List.filterMap_cons]
    rcases hgk : gen k with _ | row
    · rw [ih ht]
      by_cases hrk : rider = k
      · subst hrk
        simp [hgk, hk]
      · simp [hrk]
    · rw [List.countP_cons, ih ht]
      have hrow := hgen k row hgk
      by_cases hrk : rider = k
      · subst hrk
        simp [hrow, hgk, hk]
      · have : ¬ row.rider = rider := by
          rw [hrow]
          exact fun h => hrk h.symm
        simp [this, hrk]

/-- C9 (amended): for every round with both documents nonempty, each
rider appearing in both produces exactly one QRD row, whose stored QRD
value is `round(min qualifying time − min race time, 3)` (the code
rounds the difference to 3 decimals before storing it); riders absent
from the race produce no row. -/
theorem C9_qrd_amended :
    (∀ (rn : ℕ) (cir : String) (qual race : List QrdEntry) (rider : String),
        (qrd_analyze_round rn cir qual race).countP
            (fun row => decide (row.rider = rider))
          = if (qual ≠ [] ∧ race ≠ [])
                ∧ rider ∈ qual.map QrdEntry.rider ∧ rider ∈ race.map QrdEntry.rider
            then 1 else 0)
      ∧ (∀ (rn : ℕ) (cir : String) (qual race : List QrdEntry) (row : QrdRow),
          row ∈ qrd_analyze_round rn cir qual race →
            ∃ qb rb, minTimeOf qual row.rider = some qb
              ∧ minTimeOf race row.rider = some rb
              ∧ row.qrd = pyRound 3 (qb - rb)) := by
  constructor
  · intro rn cir qual race rider
    unfold qrd_analyze_round
    by_cases hemp : qual.isEmpty || race.isEmpty
    · rw [if_pos hemp]
      rw [List.countP_nil, if_neg]
      rintro ⟨⟨h1, h2⟩, -⟩
      rcases Bool.or_eq_true _ _ |>.mp hemp with h | h
      · exact h1 (List.isEmpty_iff.mp h)
      · exact h2 (List.isEmpty_iff.mp h)
    · rw [if_neg hemp]
      have hemp2 : qual ≠ [] ∧ race ≠ [] := by
        rw [Bool.or_eq_true] at hemp
        push_neg at hemp
        constructor
        · intro h
          exact absurd (by simp [h] : qual.isEmpty = true) hemp.1
        · intro h
          exact absurd (by simp [h] : race.isEmpty = true) hemp.2
      rw [countP_rider_filterMap _
          (nodup_sortStrings _ (nodup_uniqueKeys _)) _ ?hg rider]
      case hg =>
        intro k row hgen
        rcases hq : minTimeOf qual k with _ | qb <;> rw [hq] at hgen
        · rcases hr : minTimeOf race k with _ | rb <;> simp [hr] at hgen
        · rcases hr : minTimeOf race k with _ | rb <;> rw [hr] at hgen
          · simp at hgen
          · simp only [Option.some.injEq] at hgen
            exact (congrArg QrdRow.rider hgen).symm ▸ rfl
      refine if_congr ?_ rfl rfl
      rw [mem_sortStrings, mem_uniqueKeys]
      constructor
      · rintro ⟨hmem, hsome⟩
        refine ⟨hemp2, hmem, ?_⟩
        rcases hq : minTimeOf qual rider with _ | qb <;> rw [hq] at hsome
        · rcases hr : minTimeOf race rider with _ | rb <;> simp [hr] at hsome
        · rcases hr : minTimeOf race rider with _ | rb <;> rw [hr] at hsome
          · simp at hsome
          · exact (minTimeOf_isSome race rider).mp (by rw [hr]; rfl)
      · rintro ⟨-, hq, hr⟩
        refine ⟨hq, ?_⟩
        obtain ⟨qb, hqb⟩ := Option.isSome_iff_exists.mp ((minTimeOf_isSome qual rider).mpr hq)
        obtain ⟨rb, hrb⟩ := Option.isSome_iff_exists.mp ((minTimeOf_isSome race rider).mpr hr)
        rw [hqb, hrb]
        rfl
  · intro rn cir qual race row hrow
    unfold qrd_analyze_round at hrow
    by_cases hemp : qual.isEmpty || race.isEmpty
    · rw [if_pos hemp] at hrow
      simp at hrow
    · rw [if_neg hemp] at hrow
      obtain ⟨k, hk, hgen⟩ := List.mem_filterMap.mp hrow
      rcases hq : minTimeOf qual k with _ | qb <;> rw [hq] at hgen
      · rcases hr : minTimeOf race k with _ | rb <;> simp [hr] at hgen
      · rcases hr : minTimeOf race k with _ | rb <;> rw [hr] at hgen
        · simp at hgen
        · simp only [Option.some.injEq] at hgen
          have hrid : row.rider = k := (congrArg QrdRow.rider hgen).symm ▸ rfl
          refine ⟨qb, rb, ?_, ?_, ?_⟩
          · rw [hrid]
            exact hq
          · rw [hrid]
            exact hr
          · exact (congrArg QrdRow.qrd hgen).symm

/-- C9 counterexample: with a qualifying best of `89.0004` and a race
best of `89`, the stored QRD value is `0`, not the exact difference
`0.0004` — `analyze_round` stores `round(qual_best − race_best, 3)`. -/
theorem C9_counterexample :
    minTimeOf c9xQual ("A") = some 89.0004
      ∧ minTimeOf c9xRace ("A") = some 89
      ∧ (qrd_analyze_round 1 ("VAL") c9xQual c9xRace).map (fun row => row.qrd) = [0]
      ∧ (89.0004 : ℚ) - 89 ≠ 0 := by
  refine ⟨rfl, rfl, ?_, by norm_num⟩
  rw [show (qrd_analyze_round 1 ("VAL") c9xQual c9xRace).map (fun row => row.qrd)
      = [pyRound 3 (calculate_qrd 89.0004 89)] from rfl]
  have h1 : calculate_qrd 89.0004 89 = 0.0004 := by
    unfold calculate_qrd
    norm_num
  rw [h1]
  have h2 : ((0.0004 : ℚ) * 10 ^ 3) = 2/5 := by norm_num
  have h3 : (⌊(2/5 : ℚ)⌋ : ℤ) = 0 := by
    rw [Int.floor_eq_iff]
    norm_num
  unfold pyRound pyRoundInt
  rw [h2]
  rw [if_pos (by rw [Int.fract, h3]; norm_num)]
  rw [h3]
  norm_num

/-- C9 witness: rider `A` (present in both documents) yields exactly one
QRD row; rider `B` (qualifying only) yields none. -/
theorem C9_witness :
    (qrd_analyze_round 1 ("VAL") c9Qual c9Race).countP
        (fun row => decide (row.rider = ("A"))) = 1
      ∧ (qrd_analyze_round 1 ("VAL") c9Qual c9Race).countP
        (fun row => decide (row.rider = ("B"))) = 0 := by
  have h1 := C9_qrd_amended.1 1 ("VAL") c9Qual c9Race ("A")
  have h2 := C9_qrd_amended.1 1 ("VAL") c9Qual c9Race ("B")
  rw [if_pos (by decide)] at h1
  rw [if_neg (by decide)] at h2
  exact ⟨h1, h2⟩

/-- The current-rider state is unchanged by any line that does not match
the rider-header regex. -/
theorem processLine_fst_none (total : ℤ) (st : Option String) (line : String)
    (h : _extract_rider_info_from_text (pyStrip line) = none) :
    (processLine total st line).1 = st := by
  simp only [processLine, h]
  repeat first | rfl | split

/-- No record is emitted while no rider context is active. -/
theorem processLine_snd_none_state (total : ℤ) (line : String) :
    (processLine total none line).2 = none := by
  simp only [processLine]
  repeat first | rfl | split

/-- No record is emitted from a line that `_parse_lap_line` rejects. -/
theorem processLine_snd_none_of_no_lap (total : ℤ) (st : Option String) (line : String)
    (h : _parse_lap_line (pyStrip line) = none) :
    (processLine total st line).2 = none := by
  simp only [processLine, h]
  repeat first | rfl | split

/-- Any emitted record has at most 4 sector strings and a nonzero raw
time (the Python truthiness guard). -/
theorem processLine_emit_invariant (total : ℤ) (st : Option String) (line : String)
    (r : LapRec) (h : (processLine total st line).2 = some r) :
    r.sectors.length ≤ 4 ∧ r.raw_time ≠ 0 := by
  simp only [processLine] at h
  repeat
    first
    | (simp only [Option.some.injEq] at h
       subst h
       refine ⟨?_, by assumption⟩
       simp [List.length_take])
    | (simp at h)
    | (split at h)

/-- A line matched as a rider header replaces the current rider and
emits nothing. -/
theorem processLine_header (total : ℤ) (st : Option String) (line : String)
    (name : String) (hne : pyStrip line ≠ (""))
    (hh : _extract_rider_info_from_text (pyStrip line) = some name) :
    processLine total st line = (some name, none) := by
  simp only [processLine, hh, if_neg hne]

/-- Emission equation of the line loop: a classified lap line with an
active nonempty rider and a parsed nonzero time emits the record built
from the lap data, the time, and the fuel adjustment. -/
theorem processLine_emit (total : ℤ) (st : Option String) (line : String)
    (ld : LapLineData) (rider : String) (t : ℚ)
    (hne : pyStrip line ≠ (""))
    (hh : _extract_rider_info_from_text (pyStrip line) = none)
    (hig : isIgnored (pyStrip line) = false)
    (hld : _parse_lap_line (pyStrip line) = some ld)
    (hst : st = some rider) (hr : rider ≠ (""))
    (ht : _convert_time_to_seconds ld.time = some t) (ht0 : t ≠ 0) :
    processLine total st line
      = (st, some { rider := rider, lap := ld.lap, raw_time := t,
                    adj_time := calculate_fuel_adjusted_time t ld.lap total,
                    sectors := ld.sectors.take 4 }) := by
  subst hst
  simp only [processLine, hh, hld, ht, hig, if_neg hne, if_neg hr, if_neg ht0,
    Bool.false_eq_true, if_false]

/-- Drop equation of the line loop: a classified lap line whose time
parses to `0.0` emits nothing (Python truthiness). -/
theorem processLine_drop_zero (total : ℤ) (st : Option String) (line : String)
    (ld : LapLineData) (rider : String) (t : ℚ)
    (hne : pyStrip line ≠ (""))
    (hh : _extract_rider_info_from_text (pyStrip line) = none)
    (hig : isIgnored (pyStrip line) = false)
    (hld : _parse_lap_line (pyStrip line) = some ld)
    (hst : st = some rider) (hr : rider ≠ (""))
    (ht : _convert_time_to_seconds ld.time = some t) (ht0 : t = 0) :
    processLine total st line = (st, none) := by
  subst hst
  simp only [processLine, hh, hld, ht, hig, if_neg hne, if_neg hr, if_pos ht0,
    Bool.false_eq_true, if_false]

/-- With no rider-header line anywhere, the line loop emits nothing. -/
theorem parseLines_no_header (total : ℤ) (lines : List String)
    (h : ∀ l ∈ lines, _extract_rider_info_from_text (pyStrip l) = none) :
    parseLines total none lines = [] := by
  induction lines with
  | nil => rfl
  | cons a t ih =>
    have hfst := processLine_fst_none total none a (h a (by simp))
    have hsnd := processLine_snd_none_state total a
    rcases hp : processLine total none a with ⟨st2, r?⟩
    rw [hp] at hfst hsnd
    simp only at hfst hsnd
    subst hfst
    subst hsnd
    simp only [parseLines, hp]
    exact ih (fun l hl => h l (List.mem_cons_of_mem a hl))

/-- The number of emitted records never exceeds the number of lines
accepted by `_parse_lap_line`. -/
theorem parseLines_length_le (total : ℤ) (lines : List String) :
    ∀ st : Option String,
      (parseLines total st lines).length
        ≤ lines.countP (fun l => (_parse_lap_line (pyStrip l)).isSome) := by
  induction lines with
  | nil =>
    intro st
    simp [parseLines]
  | cons a t ih =>
    intro st
    rcases hp : processLine total st a with ⟨st2, r?⟩
    rcases r? with _ | rec
    · simp only [parseLines, hp]
      rw [List.countP_cons]
      exact le_trans (ih st2) (by omega)
    · have hlap : (_parse_lap_line (pyStrip a)).isSome = true := by
        by_contra hno
        have hnone : _parse_lap_line (pyStrip a) = none := by
          rcases hpl : _parse_lap_line (pyStrip a) with _ | ld
          · rfl
          · rw [hpl] at hno
            simp at hno
        have h2 := processLine_snd_none_of_no_lap total st a hnone
        rw [hp] at h2
        simp at h2
      simp only [parseLines, hp, List.length_cons]
      rw [List.countP_cons]
      have := ih st2
      rw [hlap]
      simp only [if_pos]
      omega

/-- Codec evaluation: `1'30.590` parses to `90.590` seconds. -/
theorem convert_130590 :
    _convert_time_to_seconds (("1") ++ aposS ++ ("30.590")) = some 90.590 := by
  rw [show _convert_time_to_seconds (("1") ++ aposS ++ ("30.590"))
      = some ((((natOfDigits ['1'] : ℕ) : ℤ) : ℚ) * 60
          + 1 * ((natOfDigits ['3', '0'] : ℚ) + fracOfDigits ['5', '9', '0'])) from rfl]
  norm_num [show natOfDigits ['1'] = 1 from by decide,
    show natOfDigits ['3', '0'] = 30 from by decide,
    show natOfDigits ['5', '9', '0'] = 590 from by decide, fracOfDigits]

/-- Codec evaluation: `1'30.0` parses to `90` seconds. -/
theorem convert_1300 :
    _convert_time_to_seconds (("1") ++ aposS ++ ("30.0")) = some 90 := by
  rw [show _convert_time_to_seconds (("1") ++ aposS ++ ("30.0"))
      = some ((((natOfDigits ['1'] : ℕ) : ℤ) : ℚ) * 60
          + 1 * ((natOfDigits ['3', '0'] : ℚ) + fracOfDigits ['0'])) from rfl]
  norm_num [show natOfDigits ['1'] = 1 from by decide,
    show natOfDigits ['3', '0'] = 30 from by decide,
    show natOfDigits ['0'] = 0 from by decide, fracOfDigits]

/-- Codec evaluation: `-1'30.0` parses to `-30` seconds (negative
minutes are accepted by `int`). -/
theorem convert_neg1300 :
    _convert_time_to_seconds (("-1") ++ aposS ++ ("30.0")) = some (-30) := by
  rw [show _convert_time_to_seconds (("-1") ++ aposS ++ ("30.0"))
      = some (((-(natOfDigits ['1'] : ℤ)) : ℚ) * 60
          + 1 * ((natOfDigits ['3', '0'] : ℚ) + fracOfDigits ['0'])) from rfl]
  norm_num [show natOfDigits ['1'] = 1 from by decide,
    show natOfDigits ['3', '0'] = 30 from by decide,
    show natOfDigits ['0'] = 0 from by decide, fracOfDigits]

/-- Codec evaluation: `0'0` parses successfully to `0.0` seconds. -/
theorem convert_00 :
    _convert_time_to_seconds (("0") ++ aposS ++ ("0")) = some 0 := by
  rw [show _convert_time_to_seconds (("0") ++ aposS ++ ("0"))
      = some ((((natOfDigits ['0'] : ℕ) : ℤ) : ℚ) * 60
          + 1 * ((natOfDigits ['0'] : ℕ) : ℚ)) from rfl]
  norm_num [show natOfDigits ['0'] = 0 from by decide]

/-- C6 (amended): every record emitted by the Session Parser has at
most 4 sector strings and a nonzero raw time; the stronger claimed
bounds `lap_number ≥ 1` and `raw_time > 0` are not enforced by the
code (see the counterexample). -/
theorem C6_record_invariant_amended :
    ∀ (lines : List String) (total : ℤ) (r : LapRec),
      r ∈ parse_pdf_analysis lines total →
        r.sectors.length ≤ 4 ∧ r.raw_time ≠ 0 := by
  intro lines total r
  unfold parse_pdf_analysis
  suffices h : ∀ st : Option String,
      r ∈ parseLines total st lines → r.sectors.length ≤ 4 ∧ r.raw_time ≠ 0 from
    h none
  induction lines with
  | nil =>
    intro st h
    simp [parseLines] at h
  | cons a t ih =>
    intro st h
    rcases hp : processLine total st a with ⟨st2, r?⟩
    rcases r? with _ | rc
    · simp only [parseLines, hp] at h
      exact ih st2 h
    · simp only [parseLines, hp] at h
      rcases List.mem_cons.mp h with hr | hr
      · subst hr
        exact processLine_emit_invariant total st a _ (by rw [hp])
      · exact ih st2 hr

/-- Evaluation of the Session Parser on the C6 witness lines: one
record for the well-formed lap line. -/
theorem c6_run_good : parse_pdf_analysis c6WitnessLines 27 = [c6Rec] := by
  have h1 := processLine_header 27 none demoHeader ("Francesco") (by decide) (by decide)
  have hld : _parse_lap_line (pyStrip demoLapLine)
      = some { lap := 8, time := ("1") ++ aposS ++ ("30.590"),
               sectors := [("20.267"), ("24.303"), ("21.725"), ("24.295")],
               speed := some ("321.3") } := by decide
  have h2 := processLine_emit 27 (some ("Francesco")) demoLapLine _ ("Francesco")
    90.590 (by decide) (by decide) (by decide) hld rfl (by decide)
    convert_130590 (by norm_num)
  show parseLines 27 none (demoHeader :: demoLapLine :: []) = [c6Rec]
  simp only [parseLines, h1, h2]
  unfold c6Rec
  norm_num [List.cons.injEq, LapRec.mk.injEq, calculate_fuel_adjusted_time,
    time_gain_per_liter, fuel_burn_rate]

/-- C6 witness: the record emitted for the demo header and lap line is
in the parse result and satisfies the amended invariant. -/
theorem C6_witness :
    c6Rec ∈ parse_pdf_analysis c6WitnessLines 27
      ∧ c6Rec.sectors.length ≤ 4 ∧ c6Rec.raw_time ≠ 0 := by
  have hmem : c6Rec ∈ parse_pdf_analysis c6WitnessLines 27 := by
    rw [c6_run_good]
    simp
  exact ⟨hmem, (C6_record_invariant_amended c6WitnessLines 27 c6Rec hmem).1,
    (C6_record_invariant_amended c6WitnessLines 27 c6Rec hmem).2⟩

/-- Evaluation of the Session Parser on the C6 counterexample lines:
a record with lap number `0` and a record with raw time `-30`. -/
theorem c6_run_bad :
    parse_pdf_analysis c6Lines 27
      = [{ rider := ("Francesco"), lap := 0, raw_time := 90,
           adj_time := calculate_fuel_adjusted_time 90 0 27,
           sectors := [("a"), ("b"), ("c"), ("d")] },
         { rider := ("Francesco"), lap := 5, raw_time := -30,
           adj_time := calculate_fuel_adjusted_time (-30) 5 27,
           sectors := [("a"), ("b"), ("c"), ("d")] }] := by
  have h1 := processLine_header 27 none demoHeader ("Francesco") (by decide) (by decide)
  have hld0 : _parse_lap_line (pyStrip lapZeroLine)
      = some { lap := 0, time := ("1") ++ aposS ++ ("30.0"),
               sectors := [("a"), ("b"), ("c"), ("d")], speed := some ("x") } := by decide
  have hldn : _parse_lap_line (pyStrip lapNegLine)
      = some { lap := 5, time := ("-1") ++ aposS ++ ("30.0"),
               sectors := [("a"), ("b"), ("c"), ("d")], speed := some ("x") } := by decide
  have h2 := processLine_emit 27 (some ("Francesco")) lapZeroLine _ ("Francesco")
    90 (by decide) (by decide) (by decide) hld0 rfl (by decide)
    convert_1300 (by norm_num)
  have h3 := processLine_emit 27 (some ("Francesco")) lapNegLine _ ("Francesco")
    (-30) (by decide) (by decide) (by decide) hldn rfl (by decide)
    convert_neg1300 (by norm_num)
  show parseLines 27 none (demoHeader :: lapZeroLine :: lapNegLine :: []) = _
  simp only [parseLines, h1, h2, h3]
  rfl

/-- C6 counterexample: the parse of `c6Lines` emits a record with
`lap_number = 0` and a record with `raw_time = -30 < 0`, refuting the
claimed invariant `lap_number ≥ 1 ∧ raw_time > 0`. -/
theorem C6_counterexample :
    ¬ (∀ r ∈ parse_pdf_analysis c6Lines 27,
        1 ≤ r.lap ∧ 0 < r.raw_time ∧ r.sectors.length ≤ 4)
      ∧ (parse_pdf_analysis c6Lines 27).map (fun r => (r.lap, r.raw_time))
          = [(0, 90), (5, -30)] := by
  constructor
  · intro hall
    have h0 := hall _ (by rw [c6_run_bad]; exact List.mem_cons_self _ _)
    exact absurd h0.1 (by decide)
  · rw [c6_run_bad]
    rfl

/-- C5 (amended): a lap row before any rider header yields no record
(with no header line at all, the parse is empty); the record count
never exceeds the number of `_parse_lap_line`-accepted lines; and on a
line classified as a lap row a record is emitted iff a nonempty rider
context is active and the lap time parses to a nonzero value (Python
truthiness: a parsed `0.0` is dropped). -/
theorem C5_session_emission_amended :
    (∀ (lines : List String) (total : ℤ),
        (∀ l ∈ lines, _extract_rider_info_from_text (pyStrip l) = none) →
          parse_pdf_analysis lines total = [])
      ∧ (∀ (lines : List String) (total : ℤ),
          (parse_pdf_analysis lines total).length
            ≤ lines.countP (fun l => (_parse_lap_line (pyStrip l)).isSome))
      ∧ (∀ (total : ℤ) (st : Option String) (line : String) (ld : LapLineData),
          classifiedLapRow line = true →
          _parse_lap_line (pyStrip line) = some ld →
            (((processLine total st line).2).isSome = true ↔
              ((∃ rider, st = some rider ∧ rider ≠ ("")) ∧
                ∃ t, _convert_time_to_seconds ld.time = some t ∧ t ≠ 0))) := by
  refine ⟨?_, ?_, ?_⟩
  · intro lines total h
    exact parseLines_no_header total lines h
  · intro lines total
    exact parseLines_length_le total lines none
  · intro total st line ld hc hld
    simp only [classifiedLapRow, Bool.and_eq_true, decide_eq_true_eq,
      Option.isNone_iff_eq_none, Bool.not_eq_true] at hc
    obtain ⟨⟨⟨hne, hh⟩, hig⟩, -⟩ := hc
    rw [Bool.not_eq_true'] at hig
    simp only [processLine, hh, hld, if_neg hne, hig, Bool.false_eq_true, if_false]
    rcases st with _ | rider
    · simp
    · by_cases hrid : rider = ("")
      · subst hrid
        simp
      · rcases hconv : _convert_time_to_seconds ld.time with _ | t
        · simp [hconv, hrid]
        · by_cases ht0 : t = 0
          · subst ht0
            simp [hconv, hrid]
          · simp [hconv, hrid, ht0]

/-- C5 counterexample: the lap line `1 0'0 a b c d e` is classified as
a lap row, its time token parses successfully (to `0.0`), a rider
context is active, and yet no record is emitted — refuting "emits a
record iff the time parses and a rider context is active". -/
theorem C5_counterexample :
    classifiedLapRow zeroTimeLapLine = true
      ∧ _convert_time_to_seconds (("0") ++ aposS ++ ("0")) ≠ none
      ∧ (processLine 27 (some ("Francesco")) zeroTimeLapLine).2 = none := by
  refine ⟨by decide, ?_, ?_⟩
  · rw [convert_00]
    simp
  · have hld : _parse_lap_line (pyStrip zeroTimeLapLine)
        = some { lap := 1, time := ("0") ++ aposS ++ ("0"),
                 sectors := [("a"), ("b"), ("c"), ("d")], speed := some ("e") } := by
      decide
    have h := processLine_drop_zero 27 (some ("Francesco")) zeroTimeLapLine _
      ("Francesco") 0 (by decide) (by decide) (by decide) hld rfl (by decide)
      convert_00 rfl
    rw [h]

/-- C5 witness: with no header line the parse is empty and bounded by
the lap-row count; with an active rider the demo lap line emits a
record. -/
theorem C5_witness :
    parse_pdf_analysis [zeroTimeLapLine, demoLapLine] 27 = []
      ∧ (parse_pdf_analysis [zeroTimeLapLine, demoLapLine] 27).length
          ≤ [zeroTimeLapLine, demoLapLine].countP
              (fun l => (_parse_lap_line (pyStrip l)).isSome)
      ∧ ((processLine 27 (some ("Francesco")) demoLapLine).2).isSome = true := by
  have hnh : ∀ l ∈ [zeroTimeLapLine, demoLapLine],
      _extract_rider_info_from_text (pyStrip l) = none := by
    intro l hl
    rcases List.mem_cons.mp hl with rfl | hl2
    · decide
    · rcases List.mem_cons.mp hl2 with rfl | hl3
      · decide
      · simp at hl3
  have hld : _parse_lap_line (pyStrip demoLapLine)
      = some { lap := 8, time := ("1") ++ aposS ++ ("30.590"),
               sectors := [("20.267"), ("24.303"), ("21.725"), ("24.295")],
               speed := some ("321.3") } := by decide
  refine ⟨C5_session_emission_amended.1 _ 27 hnh,
    C5_session_emission_amended.2.1 _ 27, ?_⟩
  exact (C5_session_emission_amended.2.2 27 (some ("Francesco")) demoLapLine _
      (by decide) hld).mpr
    ⟨⟨("Francesco"), rfl, by decide⟩, ⟨90.590, convert_130590, by norm_num⟩⟩

/-- Python `round` is the identity on integer values, at any number of
decimals. -/
theorem pyRound_intCast (nd : ℕ) (n : ℤ) : pyRound nd ((n : ℚ)) = (n : ℚ) := by
  unfold pyRound pyRoundInt
  have h1 : ((n : ℚ) * 10 ^ nd) = ((n * 10 ^ nd : ℤ) : ℚ) := by
    push_cast
    ring
  rw [h1, Int.fract_intCast, if_pos (by norm_num), Int.floor_intCast]
  push_cast
  field_simp

/-- C3: `lap_of_best` is the pandas `idxmin` index **label**, not the
0-indexed position within the rider's series.  On a single-rider session
whose DataFrame labels start at 0 the two coincide and the claimed
example holds: lap times `[90, 89, 91]` give `lap_of_best = 1`,
`laps_after_best = 1`, `degrade_rate = 2`.  But for a rider whose group
occupies labels 2–4 of the session DataFrame, the same series
`[90, 89, 91]` yields `lap_of_best = 3` (a label, not the position 1),
`laps_after_best = 3 − 3 − 1 = −1` — violating the claimed bound
`0 ≤ laps_after_best < series length` — and hence `degrade_rate = 0`
instead of the claimed `2`. -/
theorem C3_lap_of_best_position :
    ((analyze_session c3SoloSession ("race")).map
        (fun row => (row.rider, row.lap_of_best, row.laps_after_best, row.degrade_rate))
      = [(("A"), 1, 1, (2 : ℚ))])
    ∧ ((analyze_session c3Session ("race")).map
        (fun row => (row.rider, row.lap_of_best, row.laps_after_best, row.degrade_rate))
      = [(("A"), 1, 0, (0 : ℚ)), (("B"), 3, -1, 0)]) := by
  refine ⟨?_, ?_⟩
  · show [((("A") : String), (1 : ℤ), (1 : ℤ),
        pyRound 4 (((91 : ℚ) - 89) / (((1 : ℤ) : ℚ))))]
      = [(("A"), 1, 1, (2 : ℚ))]
    rw [show ((91 : ℚ) - 89) / (((1 : ℤ) : ℚ)) = ((2 : ℤ) : ℚ) from by push_cast; norm_num,
      pyRound_intCast]
    norm_num
  · show (List.map
        (fun row => (row.rider, row.lap_of_best, row.laps_after_best, row.degrade_rate))
        (List.insertionSort (fun a b => a.isd ≤ b.isd)
          [({ rider := ("A"), best_lap := pyRound 3 ((89 : ℚ)),
              final_lap := pyRound 3 ((89 : ℚ)), first_lap := pyRound 3 ((90 : ℚ)),
              avg_lap := pyRound 3 (qMean [(90 : ℚ), 89]),
              isd := pyRound 3 ((89 : ℚ) - 89), lap_of_best := 1, laps_after_best := 0,
              degrade_rate := pyRound 4 ((0 : ℚ)),
              consistency := pyRound 3 (sampleStd [(90 : ℚ), 89]),
              warm_up_time := pyRound 3 ((90 : ℚ) - 89), total_laps := 2,
              session_type := ("race") } : IsdRow),
           ({ rider := ("B"), best_lap := pyRound 3 ((89 : ℚ)),
              final_lap := pyRound 3 ((91 : ℚ)), first_lap := pyRound 3 ((90 : ℚ)),
              avg_lap := pyRound 3 (qMean [(90 : ℚ), 89, 91]),
              isd := pyRound 3 ((91 : ℚ) - 89), lap_of_best := 3, laps_after_best := -1,
              degrade_rate := pyRound 4 ((0 : ℚ)),
              consistency := pyRound 3 (sampleStd [(90 : ℚ), 89, 91]),
              warm_up_time := pyRound 3 ((90 : ℚ) - 89), total_laps := 3,
              session_type := ("race") } : IsdRow)]))
      = [(("A"), 1, 0, (0 : ℚ)), (("B"), 3, -1, 0)]
    have hA : pyRound 3 ((89 : ℚ) - 89) = 0 := by
      rw [show ((89 : ℚ) - 89) = ((0 : ℤ) : ℚ) from by norm_num, pyRound_intCast]
      norm_num
    have hB : pyRound 3 ((91 : ℚ) - 89) = 2 := by
      rw [show ((91 : ℚ) - 89) = ((2 : ℤ) : ℚ) from by norm_num, pyRound_intCast]
      norm_num
    have hD : pyRound 4 ((0 : ℚ)) = 0 := by
      rw [show ((0 : ℚ)) = ((0 : ℤ) : ℚ) from by norm_num]
      rw [pyRound_intCast]
    have hle : pyRound 3 ((89 : ℚ) - 89) ≤ pyRound 3 ((91 : ℚ) - 89) := by
      rw [hA, hB]; norm_num
    simp only [List.insertionSort, List.orderedInsert]
    rw [if_pos hle]
    simp only [List.map_cons, List.map_nil, hD]
